import Mathlib

/-!
Shallow embedding of `src/app.js`: an Express HTTP service exposing CRUD
routes over a Sequelize model `Car` stored in a SQLite table `cars`
(the persisted variant of the Virtual Garage service).

Modelling conventions:
* The `cars` table is a `List CarRecord`; a SQL `NULL` in an optional
  column is `none`.
* `Y` stands everywhere for `new Date().getFullYear()`, which the source
  reads when it builds its validators (`src/app.js` lines 40, 140, 179).
* A parsed JSON request body is a `CarBody`: each field is either present
  (`some v`) or absent (`none`).  JSON `null` values are not modelled:
  every route validator in the source rejects an explicit `null` with 400,
  so the claims only concern present or absent fields.
* An express-validator outcome (`validationResult(req).array()`) is
  modelled as the list of the error message strings the source attaches
  with `withMessage`.
* `gid` stands for the UUID v4 that Sequelize generates for `car_id`
  (`defaultValue: Sequelize.UUIDV4`, line 19) on an insert.
* Numeric JSON fields are modelled as `Int` (the service stores INTEGER
  columns); date strings are kept as strings, with the calendar-date
  check `isISODate` standing for both `isISO8601` (route) and the
  Sequelize `isDate` validator of the `DATEONLY` column.
-/

/-- A stored row of the `cars` table, i.e. one instance of the Sequelize
model `Car` (`src/app.js` lines 16-68).  `car_id` is the primary key;
`allowNull: false` columns are plain fields, nullable columns are `Option`s. -/
structure CarRecord where
  car_id : String
  user_id : String
  make : String
  model : String
  year : Int
  vin : Option String
  mileage : Option Int
  last_service_date : Option String
  deriving DecidableEq, Repr

/-- A parsed JSON request body.  A body may carry a `car_id` member, but every
handler destructures only the other seven fields (lines 151 and 191), so the
embedding keeps `car_id` separate to state that it is ignored. -/
structure CarBody where
  car_id : Option String := none
  user_id : Option String := none
  make : Option String := none
  model : Option String := none
  year : Option Int := none
  vin : Option String := none
  mileage : Option Int := none
  last_service_date : Option String := none
  deriving DecidableEq, Repr

/-- The seven fields the handlers destructure out of `req.body`
(`const \x7b user_id, make, model, year, vin, mileage, last_service_date \x7d = req.body`,
lines 151 and 191). -/
structure CarFields where
  user_id : Option String := none
  make : Option String := none
  model : Option String := none
  year : Option Int := none
  vin : Option String := none
  mileage : Option Int := none
  last_service_date : Option String := none
  deriving DecidableEq, Repr

/-- The destructuring step: drop any `car_id` member of the body. -/
def toFields (b : CarBody) : CarFields :=
  { user_id := b.user_id, make := b.make, model := b.model, year := b.year,
    vin := b.vin, mileage := b.mileage, last_service_date := b.last_service_date }

/-- One character of the Sequelize VIN pattern `[A-HJ-NPR-Z0-9]` under the `i`
flag (line 47): a digit or a latin letter of either case other than I, O, Q. -/
def vinChar (c : Char) : Bool :=
  c.isAlphanum && !(c.toUpper == 'I') && !(c.toUpper == 'O') && !(c.toUpper == 'Q')

/-- The Sequelize column validator of `vin`: the regular expression
`[A-HJ-NPR-Z0-9] x 17` anchored on both sides, case-insensitive (line 47). -/
def vinPattern (s : String) : Bool :=
  s.data.length == 17 && s.data.all vinChar

/-- Gregorian leap-year test, as used by calendar-date validation. -/
def isLeapYear (y : Nat) : Bool :=
  (y % 4 == 0 && y % 100 != 0) || y % 400 == 0

/-- Number of days of month `m` of year `y`. -/
def daysInMonth (y m : Nat) : Nat :=
  if m == 2 then (if isLeapYear y then 29 else 28)
  else if m == 4 || m == 6 || m == 9 || m == 11 then 30
  else 31

/-- Decimal value of a digit string. -/
def digitsVal (cs : List Char) : Nat :=
  cs.foldl (fun a c => a * 10 + (c.toNat - 48)) 0

/-- Calendar-date check on a `YYYY-MM-DD` string.  This models both the route
check `isISO8601` (lines 143 and 182) and the Sequelize `isDate` validator of
the `DATEONLY` column (line 62), restricted to the plain calendar-date strings
the API stores. -/
def isISODate (s : String) : Bool :=
  match s.data with
  | [y1, y2, y3, y4, '-', m1, m2, '-', d1, d2] =>
      [y1, y2, y3, y4, m1, m2, d1, d2].all Char.isDigit &&
      (let y := digitsVal [y1, y2, y3, y4]
       let m := digitsVal [m1, m2]
       let d := digitsVal [d1, d2]
       decide (1 ≤ m) && decide (m ≤ 12) && decide (1 ≤ d) &&
       decide (d ≤ daysInMonth y m))
  | _ => false

/-- Error messages attached by `withMessage` in the POST chain (lines 137-143). -/
def msgUserId : String := "ID является обязательным полем"

/-- POST / PUT message for a missing or empty `make`. -/
def msgMake : String := "Марка вляется обязательным полем"

/-- POST / PUT message for a missing or empty `model`. -/
def msgModel : String := "Модель вляется обязательным полем"

/-- POST / PUT message for a year outside 1900 .. current year + 1. -/
def msgYear : String := "Невалидный год"

/-- POST message for a malformed `vin` (line 141). -/
def msgVin : String := "VIN может быть только из 17 символов"

/-- PUT message for a malformed `vin` (line 180). -/
def msgVinPut : String := "VIN должен состоять только из 17 символов"

/-- POST / PUT message for a negative or non-integer `mileage`. -/
def msgMileage : String := "Пробег должен быть положительным числом"

/-- POST message for a malformed `last_service_date` (line 143). -/
def msgDate : String := "Невалидная дата сервиса"

/-- PUT message for a malformed `last_service_date` (line 182). -/
def msgDatePut : String := "невалидная дата сервиса"

/-- `body(f).notEmpty().withMessage(msg)`: fails when the field is absent or
is the empty string (lines 137-139). -/
def errRequired (v : Option String) (msg : String) : List String :=
  match v with
  | some s => if s = "" then [msg] else []
  | none => [msg]

/-- `body(f).optional().notEmpty().withMessage(msg)`: an absent field is
skipped, a present empty string fails (lines 176-178). -/
def errOptionalNonEmpty (v : Option String) (msg : String) : List String :=
  match v with
  | some s => if s = "" then [msg] else []
  | none => []

/-- `body('year').isInt(\x7b min: 1900, max: Y + 1 \x7d)` (line 140), with
`required = false` for the `.optional()` PUT form (line 179). -/
def errYearRange (Y : Int) (v : Option Int) (required : Bool) (msg : String) :
    List String :=
  match v with
  | some y => if 1900 ≤ y ∧ y ≤ Y + 1 then [] else [msg]
  | none => if required then [msg] else []

/-- `body('vin').optional().isAlphanumeric().isLength(\x7b min: 17, max: 17 \x7d)`
(lines 141 and 180).  Note this route check accepts any 17 alphanumeric
characters, with no exclusion of I, O, Q. -/
def errVinCheck (v : Option String) (msg : String) : List String :=
  match v with
  | some s => if s.data.all Char.isAlphanum && s.data.length == 17 then []
              else [msg]
  | none => []

/-- `body('mileage').optional().isInt(\x7b min: 0 \x7d)` (lines 142 and 181). -/
def errMileageCheck (v : Option Int) (msg : String) : List String :=
  match v with
  | some m => if 0 ≤ m then [] else [msg]
  | none => []

/-- `body('last_service_date').optional().isISO8601()` (lines 143 and 182). -/
def errDateCheck (v : Option String) (msg : String) : List String :=
  match v with
  | some d => if isISODate d then [] else [msg]
  | none => []

/-- The express-validator chain of POST /cars (lines 136-143), as the list of
per-field error messages collected by `validationResult(req)`. -/
def postErrors (Y : Int) (f : CarFields) : List String :=
  errRequired f.user_id msgUserId ++ errRequired f.make msgMake ++
  errRequired f.model msgModel ++ errYearRange Y f.year true msgYear ++
  errVinCheck f.vin msgVin ++ errMileageCheck f.mileage msgMileage ++
  errDateCheck f.last_service_date msgDate

/-- The express-validator chain of PUT /cars/:car_id (lines 175-182): every
check is `.optional()`. -/
def putErrors (Y : Int) (f : CarFields) : List String :=
  errOptionalNonEmpty f.user_id msgUserId ++ errOptionalNonEmpty f.make msgMake ++
  errOptionalNonEmpty f.model msgModel ++ errYearRange Y f.year false msgYear ++
  errVinCheck f.vin msgVinPut ++ errMileageCheck f.mileage msgMileage ++
  errDateCheck f.last_service_date msgDatePut

/-- The `vin` column validator on a nullable value: `NULL` is skipped,
a present value must match the VIN pattern (lines 43-49). -/
def modelVinOk (v : Option String) : Bool :=
  match v with
  | some s => vinPattern s
  | none => true

/-- The `mileage` column validator: `isInt, min: 0` (lines 50-57). -/
def modelMileageOk (v : Option Int) : Bool :=
  match v with
  | some m => decide (0 ≤ m)
  | none => true

/-- The `last_service_date` column validator: `isDate` (lines 58-64). -/
def modelDateOk (v : Option String) : Bool :=
  match v with
  | some d => isISODate d
  | none => true

/-- The Sequelize column validators of the `Car` model run on a full row at
every `create`/`save` (lines 34-64): year range, VIN pattern, non-negative
mileage, valid date. -/
def modelValidateRecord (Y : Int) (r : CarRecord) : Bool :=
  decide (1900 ≤ r.year ∧ r.year ≤ Y + 1) && modelVinOk r.vin &&
  modelMileageOk r.mileage && modelDateOk r.last_service_date

/-- The row `Car.create` builds out of a generated id and the destructured
fields (lines 154-162). -/
def mkRecord (gid u mk md : String) (y : Int) (f : CarFields) : CarRecord :=
  { car_id := gid, user_id := u, make := mk, model := md, year := y,
    vin := f.vin, mileage := f.mileage, last_service_date := f.last_service_date }

/-- The HTTP responses the handlers produce, tagged with their status codes.
`badRequest400` carries the `errors` array, `ok200`/`created201` carry the
serialized record. -/
inductive Resp where
  | ok200 (car : CarRecord)
  | created201 (car : CarRecord)
  | badRequest400 (errors : List String)
  | notFound404
  | noContent204
  | serverError500
  deriving DecidableEq, Repr

/-- The `cars` table. -/
abbrev DB := List CarRecord

/-- `Car.findByPk(car_id)`: the row whose primary key equals `id`. -/
def findByPk (db : DB) (id : String) : Option CarRecord :=
  db.find? (fun c => c.car_id == id)

/-- `Car.create(\x7b...\x7d)`: an `undefined` value in an `allowNull: false`
column, or any column-validator failure, throws (which the handler turns into
a 500); otherwise the new row, keyed by the generated UUID `gid`, is inserted. -/
def carCreate (Y : Int) (gid : String) (f : CarFields) (db : DB) :
    Option (CarRecord × DB) :=
  match f.user_id with
  | none => none
  | some u =>
    match f.make with
    | none => none
    | some mk =>
      match f.model with
      | none => none
      | some md =>
        match f.year with
        | none => none
        | some y =>
          if modelValidateRecord Y (mkRecord gid u mk md y f) then
            some (mkRecord gid u mk md y f, db ++ [mkRecord gid u mk md y f])
          else none

/-- POST /cars handler (lines 133-169): run the validator chain, reject with
400 and the error array when it is non-empty, then `Car.create`; a thrown
create error is caught and answered with 500. -/
def postCars (Y : Int) (gid : String) (db : DB) (b : CarBody) : Resp × DB :=
  if (postErrors Y (toFields b)).isEmpty then
    match carCreate Y gid (toFields b) db with
    | some (r, db2) => (Resp.created201 r, db2)
    | none => (Resp.serverError500, db)
  else (Resp.badRequest400 (postErrors Y (toFields b)), db)

/-- Merge of present new values over an optional stored column. -/
def mergeOpt {α : Type} (n o : Option α) : Option α :=
  match n with
  | some v => some v
  | none => o

/-- The merge `car.update(\x7b...\x7d)` performs (lines 199-207): Sequelize
`update` drops `undefined` values before setting, so fields absent from the
body keep their stored values; `car_id` is not among the destructured fields
and is never touched. -/
def carUpdateFields (old : CarRecord) (f : CarFields) : CarRecord :=
  { car_id := old.car_id
    user_id := f.user_id.getD old.user_id
    make := f.make.getD old.make
    model := f.model.getD old.model
    year := f.year.getD old.year
    vin := mergeOpt f.vin old.vin
    mileage := mergeOpt f.mileage old.mileage
    last_service_date := mergeOpt f.last_service_date old.last_service_date }

/-- PUT /cars/:car_id handler (lines 172-215): validator chain, then
`findByPk` (404 when absent), then `car.update` (the save re-runs the column
validators; a thrown validation error is answered with 500), then 200 with
the updated instance. -/
def putCars (Y : Int) (db : DB) (id : String) (b : CarBody) : Resp × DB :=
  if (putErrors Y (toFields b)).isEmpty then
    match findByPk db id with
    | none => (Resp.notFound404, db)
    | some car =>
        if modelValidateRecord Y (carUpdateFields car (toFields b)) then
          (Resp.ok200 (carUpdateFields car (toFields b)),
           db.map (fun c => if c.car_id == id then
                              carUpdateFields car (toFields b)
                            else c))
        else (Resp.serverError500, db)
  else (Resp.badRequest400 (putErrors Y (toFields b)), db)

/-- DELETE /cars/:car_id handler (lines 218-233): `findByPk`, 404 when absent,
otherwise `car.destroy()` and 204 with no body. -/
def deleteCars (db : DB) (id : String) : Resp × DB :=
  match findByPk db id with
  | none => (Resp.notFound404, db)
  | some _ => (Resp.noContent204, db.filter (fun c => !(c.car_id == id)))

/-- GET /cars/:car_id handler (lines 116-130). -/
def getCar (db : DB) (id : String) : Resp :=
  match findByPk db id with
  | some c => Resp.ok200 c
  | none => Resp.notFound404

/-- The literal seed values of the startup block (lines 77-85).  Note the
`vin` constant has 15 characters. -/
def seedFields : CarFields :=
  { user_id := some "user123", make := some "Toyota", model := some "Camry",
    year := some 2020, vin := some "JTDKL4830399234",
    mileage := some 50000, last_service_date := some "2023-11-15" }

/-- The startup block (lines 71-93): after `sequelize.sync`, when
`Car.count() === 0` it attempts `Car.create(seed)`; an exception thrown by the
create is caught and only logged, leaving the table as it was. -/
def startup (Y : Int) (gid : String) (db : DB) : DB :=
  if db.isEmpty then
    match carCreate Y gid seedFields db with
    | some (_, db2) => db2
    | none => db
  else db

/-- All POST validation conditions except the one on `year`: the route checks
of every non-year field pass and the non-year Sequelize column validators
accept. -/
def fieldsOtherwiseValid (f : CarFields) : Prop :=
  errRequired f.user_id msgUserId = [] ∧
  errRequired f.make msgMake = [] ∧
  errRequired f.model msgModel = [] ∧
  errVinCheck f.vin msgVin = [] ∧
  errMileageCheck f.mileage msgMileage = [] ∧
  errDateCheck f.last_service_date msgDate = [] ∧
  modelVinOk f.vin = true ∧
  modelMileageOk f.mileage = true ∧
  modelDateOk f.last_service_date = true

/-- A concrete stored record used by the concrete instantiations below. -/
def car0 : CarRecord :=
  { car_id := "car-1", user_id := "user123", make := "Toyota", model := "Camry",
    year := 2020, vin := none, mileage := some 50000,
    last_service_date := some "2023-11-15" }

/-- A required-field route check only succeeds on a present non-empty string. -/
theorem errRequired_some (v : Option String) (msg : String)
    (h : errRequired v msg = []) : ∃ s, v = some s ∧ s ≠ "" := by
  cases v with
  | none => simp [errRequired] at h
  | some s =>
      by_cases he : s = ""
      · subst he; simp [errRequired] at h
      · exact ⟨s, rfl, he⟩

/-- The required year check only succeeds on a present in-range integer. -/
theorem errYearRange_some (Y : Int) (v : Option Int)
    (h : errYearRange Y v true msgYear = []) :
    ∃ y, v = some y ∧ 1900 ≤ y ∧ y ≤ Y + 1 := by
  cases v with
  | none => simp [errYearRange] at h
  | some y =>
      by_cases hy : 1900 ≤ y ∧ y ≤ Y + 1
      · exact ⟨y, rfl, hy⟩
      · simp [errYearRange, hy] at h

/-- The route mileage check coincides with the column mileage validator. -/
theorem errMileageCheck_model (v : Option Int) (msg : String)
    (h : errMileageCheck v msg = []) : modelMileageOk v = true := by
  cases v with
  | none => rfl
  | some m =>
      by_cases hm : (0 : Int) ≤ m
      · simp [modelMileageOk, hm]
      · simp [errMileageCheck, hm] at h

/-- The route date check coincides with the column date validator. -/
theorem errDateCheck_model (v : Option String) (msg : String)
    (h : errDateCheck v msg = []) : modelDateOk v = true := by
  cases v with
  | none => rfl
  | some d =>
      by_cases hd : isISODate d = true
      · simp [modelDateOk, hd]
      · simp [errDateCheck, hd] at h

/-- An empty POST error list means every per-field check returned no error. -/
theorem postErrors_nil_parts (Y : Int) (f : CarFields) (h : postErrors Y f = []) :
    errRequired f.user_id msgUserId = [] ∧ errRequired f.make msgMake = [] ∧
    errRequired f.model msgModel = [] ∧ errYearRange Y f.year true msgYear = [] ∧
    errVinCheck f.vin msgVin = [] ∧ errMileageCheck f.mileage msgMileage = [] ∧
    errDateCheck f.last_service_date msgDate = [] := by
  unfold postErrors at h
  simpa [List.append_eq_nil] using h

/-- A POST whose validator chain reports an error is answered with 400 and
leaves the table untouched. -/
theorem postCars_badRequest (Y : Int) (gid : String) (db : DB) (b : CarBody)
    (h : postErrors Y (toFields b) ≠ []) :
    postCars Y gid db b = (Resp.badRequest400 (postErrors Y (toFields b)), db) := by
  have he : (postErrors Y (toFields b)).isEmpty = false := by
    cases hx : postErrors Y (toFields b) with
    | nil => exact absurd hx h
    | cons a t => rfl
  simp [postCars, he]

/-- A POST that passes the route chain and whose vin also satisfies the column
VIN pattern creates and appends exactly one record carrying the generated id
and the payload's field values. -/
theorem postCars_valid_created (Y : Int) (gid : String) (db : DB) (b : CarBody)
    (hroute : postErrors Y (toFields b) = [])
    (hvin : modelVinOk (toFields b).vin = true) :
    ∃ r, postCars Y gid db b = (Resp.created201 r, db ++ [r]) ∧
      r.car_id = gid ∧
      (toFields b).user_id = some r.user_id ∧
      (toFields b).make = some r.make ∧
      (toFields b).model = some r.model ∧
      (toFields b).year = some r.year ∧
      r.vin = (toFields b).vin ∧
      r.mileage = (toFields b).mileage ∧
      r.last_service_date = (toFields b).last_service_date := by
  obtain ⟨h1, h2, h3, h4, h5, h6, h7⟩ := postErrors_nil_parts Y _ hroute
  obtain ⟨u, hu, _⟩ := errRequired_some _ _ h1
  obtain ⟨mk, hmk, _⟩ := errRequired_some _ _ h2
  obtain ⟨md, hmd, _⟩ := errRequired_some _ _ h3
  obtain ⟨y, hy, hy1, hy2⟩ := errYearRange_some Y _ h4
  have hmil := errMileageCheck_model _ _ h6
  have hdate := errDateCheck_model _ _ h7
  have hmodel : modelValidateRecord Y (mkRecord gid u mk md y (toFields b)) = true := by
    simp [modelValidateRecord, mkRecord, hvin, hmil, hdate, hy1, hy2]
  refine ⟨mkRecord gid u mk md y (toFields b), ?_, rfl, hu, hmk, hmd, hy, rfl, rfl, rfl⟩
  simp [postCars, hroute, carCreate, hu, hmk, hmd, hy, hmodel]

/-- A POST body meeting every condition of the claim "user_id, make, model
non-empty; year in range; vin exactly 17 alphanumeric characters": the vin is
seventeen alphanumeric characters, but contains the letter I, which the
Sequelize VIN pattern excludes. -/
def c2Body : CarBody :=
  { user_id := some "user123", make := some "Toyota", model := some "Camry",
    year := some 2020, vin := some "AAAAAAAAAAAAAAAAI" }

/-- C2 counterexample: a POST whose fields satisfy all the claim's conditions
(non-empty required strings, in-range year, a vin of exactly 17 alphanumeric
characters) is NOT answered with 201: the route chain accepts it, but
`Car.create` throws on the Sequelize VIN pattern (which excludes I, O, Q),
and the handler answers 500 with the table unchanged. -/
theorem c2_alphanumeric_vin_rejected :
    ((toFields c2Body).vin = some "AAAAAAAAAAAAAAAAI" ∧
     "AAAAAAAAAAAAAAAAI".data.length = 17 ∧
     "AAAAAAAAAAAAAAAAI".data.all Char.isAlphanum = true ∧
     postErrors 2025 (toFields c2Body) = []) ∧
    postCars 2025 "gid-1" [] c2Body = (Resp.serverError500, []) := by
  decide

/-- C2 (amended): for every POST /cars request that passes the route validator
chain (non-empty user_id/make/model, year between 1900 and current_year + 1,
vin if present 17 alphanumeric characters, mileage if present non-negative,
last_service_date if present a valid ISO-8601 date) and whose vin, if present,
moreover matches the VIN alphabet (no I, O, Q), the response is 201 with the
created record carrying the storage-generated id. -/
theorem c2_valid_post_created (Y : Int) (gid : String) (db : DB) (b : CarBody)
    (hroute : postErrors Y (toFields b) = [])
    (hvin : modelVinOk (toFields b).vin = true) :
    ∃ r, postCars Y gid db b = (Resp.created201 r, db ++ [r]) ∧ r.car_id = gid := by
  obtain ⟨r, hp, hid, _⟩ := postCars_valid_created Y gid db b hroute hvin
  exact ⟨r, hp, hid⟩

/-- A fully valid POST body, its vin drawn from the VIN alphabet. -/
def c2GoodBody : CarBody :=
  { user_id := some "user123", make := some "Toyota", model := some "Camry",
    year := some 2020, vin := some "1HGCM82633A004352", mileage := some 50000,
    last_service_date := some "2023-11-15" }

/-- Witness for the amended C2 at a concrete valid payload. -/
theorem c2_valid_post_created_witness :
    postErrors 2025 (toFields c2GoodBody) = [] ∧
    modelVinOk (toFields c2GoodBody).vin = true ∧
    ∃ r, postCars 2025 "gid-2" [] c2GoodBody = (Resp.created201 r, [] ++ [r]) ∧
      r.car_id = "gid-2" :=
  ⟨by decide, by decide,
   c2_valid_post_created 2025 "gid-2" [] c2GoodBody (by decide) (by decide)⟩

/-- C3: the startup seeding of an empty table fails, so the collection stays
empty.  The hard-coded seed vin "JTDKL4830399234" has 15 characters, the
Sequelize VIN column validator requires exactly 17, so the seed `Car.create`
throws, the startup block catches and only logs the error, and the table
remains empty instead of containing the example record. -/
theorem c3_startup_seed_not_inserted :
    startup 2025 "seed-id" [] = [] ∧
    modelVinOk seedFields.vin = false ∧
    "JTDKL4830399234".data.length = 15 := by
  decide

/-- C4: any POST /cars whose body has no `make` is answered with 400 carrying
the per-field error list (which contains the make message), and the stored
collection is unchanged (same list, hence same size). -/
theorem c4_post_missing_make (Y : Int) (gid : String) (db : DB) (b : CarBody)
    (h : b.make = none) :
    postCars Y gid db b = (Resp.badRequest400 (postErrors Y (toFields b)), db) ∧
    msgMake ∈ postErrors Y (toFields b) ∧
    (postCars Y gid db b).2.length = db.length := by
  have hmem : msgMake ∈ postErrors Y (toFields b) := by
    have hf : (toFields b).make = none := h
    unfold postErrors
    rw [hf]
    simp [errRequired]
  have hne : postErrors Y (toFields b) ≠ [] := by
    intro hnil
    rw [hnil] at hmem
    exact List.not_mem_nil _ hmem
  have heq := postCars_badRequest Y gid db b hne
  exact ⟨heq, hmem, by rw [heq]⟩

/-- A POST body whose `make` is absent and whose other fields are valid. -/
def c4Body : CarBody :=
  { user_id := some "user123", model := some "Camry", year := some 2020 }

/-- Witness for C4 at a concrete body and non-empty table. -/
theorem c4_post_missing_make_witness :
    c4Body.make = none ∧
    postCars 2025 "gid-4" [car0] c4Body =
      (Resp.badRequest400 (postErrors 2025 (toFields c4Body)), [car0]) ∧
    msgMake ∈ postErrors 2025 (toFields c4Body) ∧
    (postCars 2025 "gid-4" [car0] c4Body).2.length = [car0].length :=
  ⟨rfl, (c4_post_missing_make 2025 "gid-4" [car0] c4Body rfl).1,
   (c4_post_missing_make 2025 "gid-4" [car0] c4Body rfl).2.1,
   (c4_post_missing_make 2025 "gid-4" [car0] c4Body rfl).2.2⟩

/-- After deleting the rows keyed by `id`, a lookup of `id` finds nothing. -/
theorem findByPk_filter_self (db : DB) (id : String) :
    findByPk (db.filter (fun c => !(c.car_id == id))) id = none := by
  unfold findByPk
  rw [List.find?_eq_none]
  intro c hc
  have h2 := (List.mem_filter.mp hc).2
  simp only [Bool.not_eq_eq_eq_not, Bool.not_true, beq_eq_false_iff_ne] at h2
  simp [h2]

/-- C5: for every table and id, deleting an existing id answers 204 with no
body and removes the record, so that a subsequent GET of that id answers 404;
deleting a non-existent id answers 404. -/
theorem c5_delete_semantics (db : DB) (id : String) :
    (∀ car, findByPk db id = some car →
        deleteCars db id =
          (Resp.noContent204, db.filter (fun c => !(c.car_id == id))) ∧
        getCar (deleteCars db id).2 id = Resp.notFound404) ∧
    (findByPk db id = none → deleteCars db id = (Resp.notFound404, db)) := by
  constructor
  · intro car hfind
    have hd : deleteCars db id =
        (Resp.noContent204, db.filter (fun c => !(c.car_id == id))) := by
      simp [deleteCars, hfind]
    refine ⟨hd, ?_⟩
    rw [hd]
    simp [getCar, findByPk_filter_self]
  · intro h
    simp [deleteCars, h]

/-- Witness for C5: delete an existing id, then GET it; delete an absent id. -/
theorem c5_delete_semantics_witness :
    findByPk [car0] "car-1" = some car0 ∧
    deleteCars [car0] "car-1" =
      (Resp.noContent204, [car0].filter (fun c => !(c.car_id == "car-1"))) ∧
    getCar (deleteCars [car0] "car-1").2 "car-1" = Resp.notFound404 ∧
    findByPk [car0] "none-such" = none ∧
    deleteCars [car0] "none-such" = (Resp.notFound404, [car0]) :=
  ⟨by decide,
   ((c5_delete_semantics [car0] "car-1").1 car0 (by decide)).1,
   ((c5_delete_semantics [car0] "car-1").1 car0 (by decide)).2,
   by decide,
   (c5_delete_semantics [car0] "none-such").2 (by decide)⟩

/-- An out-of-range present year makes the required year check fail. -/
theorem errYearRange_out (Y y : Int) (h : ¬ (1900 ≤ y ∧ y ≤ Y + 1)) :
    errYearRange Y (some y) true msgYear = [msgYear] := by
  simp [errYearRange, h]

/-- C6: for POST bodies that are otherwise valid, year 1900 and year
current_year + 1 are accepted with 201, while 1899 and current_year + 2 are
rejected with 400. -/
theorem c6_year_boundaries (Y : Int) (gid : String) (db : DB) (b : CarBody)
    (hf : fieldsOtherwiseValid (toFields b)) (hY : 1899 ≤ Y) :
    (∃ r, (postCars Y gid db { b with year := some 1900 }).1 = Resp.created201 r) ∧
    (∃ r, (postCars Y gid db { b with year := some (Y + 1) }).1 = Resp.created201 r) ∧
    (∃ e, (postCars Y gid db { b with year := some 1899 }).1 = Resp.badRequest400 e) ∧
    (∃ e, (postCars Y gid db { b with year := some (Y + 2) }).1 = Resp.badRequest400 e) := by
  obtain ⟨h1, h2, h3, h4, h5, h6, h7, h8, h9⟩ := hf
  have hpos : ∀ y : Int, 1900 ≤ y → y ≤ Y + 1 →
      ∃ r, (postCars Y gid db { b with year := some y }).1 = Resp.created201 r := by
    intro y hy1 hy2
    have hyr : errYearRange Y (some y) true msgYear = [] := by
      simp [errYearRange, hy1, hy2]
    have hroute : postErrors Y (toFields { b with year := some y }) = [] := by
      show errRequired (toFields b).user_id msgUserId ++
           errRequired (toFields b).make msgMake ++
           errRequired (toFields b).model msgModel ++
           errYearRange Y (some y) true msgYear ++
           errVinCheck (toFields b).vin msgVin ++
           errMileageCheck (toFields b).mileage msgMileage ++
           errDateCheck (toFields b).last_service_date msgDate = []
      rw [h1, h2, h3, h4, h5, h6, hyr]
      rfl
    obtain ⟨r, hp, _⟩ := postCars_valid_created Y gid db _ hroute h7
    exact ⟨r, by rw [hp]⟩
  have hneg : ∀ y : Int, ¬ (1900 ≤ y ∧ y ≤ Y + 1) →
      ∃ e, (postCars Y gid db { b with year := some y }).1 = Resp.badRequest400 e := by
    intro y hy
    have hne : postErrors Y (toFields { b with year := some y }) ≠ [] := by
      intro hnil
      have hx : errYearRange Y (some y) true msgYear = [] :=
        (postErrors_nil_parts Y _ hnil).2.2.2.1
      rw [errYearRange_out Y y hy] at hx
      simp at hx
    have hbr := postCars_badRequest Y gid db _ hne
    exact ⟨_, by rw [hbr]⟩
  exact ⟨hpos 1900 (by omega) (by omega), hpos (Y + 1) (by omega) (by omega),
         hneg 1899 (by omega), hneg (Y + 2) (by omega)⟩

/-- A POST body valid in every field except that `year` is absent. -/
def c6Body : CarBody :=
  { user_id := some "user42", make := some "Tesla", model := some "Model S" }

/-- Witness for C6 at a concrete otherwise-valid body and year 2025. -/
theorem c6_year_boundaries_witness :
    fieldsOtherwiseValid (toFields c6Body) ∧ (1899 : Int) ≤ 2025 ∧
    ((∃ r, (postCars 2025 "g6" [] { c6Body with year := some 1900 }).1 =
        Resp.created201 r) ∧
     (∃ r, (postCars 2025 "g6" [] { c6Body with year := some (2025 + 1) }).1 =
        Resp.created201 r) ∧
     (∃ e, (postCars 2025 "g6" [] { c6Body with year := some 1899 }).1 =
        Resp.badRequest400 e) ∧
     (∃ e, (postCars 2025 "g6" [] { c6Body with year := some (2025 + 2) }).1 =
        Resp.badRequest400 e)) :=
  ⟨by unfold fieldsOtherwiseValid; decide, by decide,
   c6_year_boundaries 2025 "g6" [] c6Body
     (by unfold fieldsOtherwiseValid; decide) (by decide)⟩

/-- Appending a row whose key is not yet present makes it the lookup result. -/
theorem findByPk_append_fresh (db : DB) (r : CarRecord) (id : String)
    (hfresh : findByPk db id = none) (hr : r.car_id = id) :
    findByPk (db ++ [r]) id = some r := by
  unfold findByPk at hfresh ⊢
  rw [List.find?_append, hfresh]
  have hone : List.find? (fun c => c.car_id == id) [r] = some r :=
    List.find?_cons_of_pos _ (by simp [hr])
  rw [hone]
  rfl

/-- C7: round trip.  For every creation payload accepted by both validation
layers and a fresh generated id, POST answers 201 with a record made of the
payload's fields plus the generated car_id, and an immediate GET of that id
returns exactly that record. -/
theorem c7_post_get_round_trip (Y : Int) (gid : String) (db : DB) (b : CarBody)
    (hroute : postErrors Y (toFields b) = [])
    (hvin : modelVinOk (toFields b).vin = true)
    (hfresh : findByPk db gid = none) :
    ∃ r, postCars Y gid db b = (Resp.created201 r, db ++ [r]) ∧
      getCar (db ++ [r]) gid = Resp.ok200 r ∧
      r.car_id = gid ∧
      (toFields b).user_id = some r.user_id ∧
      (toFields b).make = some r.make ∧
      (toFields b).model = some r.model ∧
      (toFields b).year = some r.year ∧
      r.vin = (toFields b).vin ∧
      r.mileage = (toFields b).mileage ∧
      r.last_service_date = (toFields b).last_service_date := by
  obtain ⟨r, hp, hid, hu, hmk, hmd, hy, hv, hm, hd⟩ :=
    postCars_valid_created Y gid db b hroute hvin
  have hg : findByPk (db ++ [r]) gid = some r :=
    findByPk_append_fresh db r gid hfresh hid
  exact ⟨r, hp, by simp [getCar, hg], hid, hu, hmk, hmd, hy, hv, hm, hd⟩

/-- A fully valid creation payload for the round-trip witness. -/
def c7Body : CarBody :=
  { user_id := some "user77", make := some "Honda", model := some "Civic",
    year := some 2021, vin := some "2HGFA16508H000000", mileage := some 12000,
    last_service_date := some "2024-02-29" }

/-- Witness for C7 at a concrete valid payload against a non-empty table. -/
theorem c7_post_get_round_trip_witness :
    postErrors 2025 (toFields c7Body) = [] ∧
    modelVinOk (toFields c7Body).vin = true ∧
    findByPk [car0] "gid-7" = none ∧
    ∃ r, postCars 2025 "gid-7" [car0] c7Body = (Resp.created201 r, [car0] ++ [r]) ∧
      getCar ([car0] ++ [r]) "gid-7" = Resp.ok200 r ∧
      r.car_id = "gid-7" ∧
      (toFields c7Body).user_id = some r.user_id ∧
      (toFields c7Body).make = some r.make ∧
      (toFields c7Body).model = some r.model ∧
      (toFields c7Body).year = some r.year ∧
      r.vin = (toFields c7Body).vin ∧
      r.mileage = (toFields c7Body).mileage ∧
      r.last_service_date = (toFields c7Body).last_service_date :=
  ⟨by decide, by decide, by decide,
   c7_post_get_round_trip 2025 "gid-7" [car0] c7Body (by decide) (by decide)
     (by decide)⟩

/-- Inversion of a successful `Car.create`: the required fields were present
and the inserted row is made of the generated id and the given fields. -/
theorem carCreate_some_inv (Y : Int) (gid : String) (f : CarFields) (db : DB)
    (r : CarRecord) (d : DB) (h : carCreate Y gid f db = some (r, d)) :
    ∃ u mk md y, f.user_id = some u ∧ f.make = some mk ∧ f.model = some md ∧
      f.year = some y ∧ r = mkRecord gid u mk md y f ∧ d = db ++ [r] := by
  unfold carCreate at h
  split at h
  · exact absurd h (by simp)
  next u hu =>
    split at h
    · exact absurd h (by simp)
    next mk hmk =>
      split at h
      · exact absurd h (by simp)
      next md hmd =>
        split at h
        · exact absurd h (by simp)
        next y hy =>
          split at h
          next hval =>
            simp only [Option.some.injEq, Prod.mk.injEq] at h
            obtain ⟨hr, hd⟩ := h
            exact ⟨u, mk, md, y, hu, hmk, hmd, hy, hr.symm,
                   by rw [← hd, hr]⟩
          next hval => exact absurd h (by simp)

/-- Inversion of a 201 answer of the POST handler. -/
theorem postCars_created_inv (Y : Int) (gid : String) (db : DB) (b : CarBody)
    (r : CarRecord) (d : DB)
    (h : postCars Y gid db b = (Resp.created201 r, d)) :
    ∃ u mk md y, (toFields b).user_id = some u ∧ (toFields b).make = some mk ∧
      (toFields b).model = some md ∧ (toFields b).year = some y ∧
      r = mkRecord gid u mk md y (toFields b) ∧ d = db ++ [r] := by
  unfold postCars at h
  split at h
  · split at h
    next r0 d0 hcc =>
      simp only [Prod.mk.injEq, Resp.created201.injEq] at h
      obtain ⟨hr, hd⟩ := h
      obtain ⟨u, mk, md, y, hu, hmk, hmd, hy, hr0, hd0⟩ :=
        carCreate_some_inv Y gid (toFields b) db r0 d0 hcc
      subst hr
      subst hd
      exact ⟨u, mk, md, y, hu, hmk, hmd, hy, hr0, hd0⟩
    next hcc => exact absurd h (by simp)
  · exact absurd h (by simp)

/-- C8: any `car_id` member of a POST body is ignored.  The handler behaves
identically with and without it, the created record's id is the
storage-generated UUID, and two accepted create requests whose bodies differ
only in a `car_id` member produce records that differ only in their generated
ids. -/
theorem c8_body_car_id_ignored (Y : Int) (g1 g2 : String) (db : DB)
    (b : CarBody) (cid : Option String) (r1 r2 : CarRecord) (d1 d2 : DB)
    (h1 : postCars Y g1 db b = (Resp.created201 r1, d1))
    (h2 : postCars Y g2 db { b with car_id := cid } = (Resp.created201 r2, d2)) :
    postCars Y g1 db { b with car_id := cid } = postCars Y g1 db b ∧
    r1.car_id = g1 ∧ r2.car_id = g2 ∧ { r1 with car_id := g2 } = r2 := by
  obtain ⟨u, mk, md, y, hu, hmk, hmd, hy, hr1, _⟩ :=
    postCars_created_inv Y g1 db b r1 d1 h1
  have h2b : postCars Y g2 db b = (Resp.created201 r2, d2) := h2
  obtain ⟨u', mk', md', y', hu', hmk', hmd', hy', hr2, _⟩ :=
    postCars_created_inv Y g2 db b r2 d2 h2b
  have huu : u = u' := Option.some.inj (hu.symm.trans hu')
  have hmkk : mk = mk' := Option.some.inj (hmk.symm.trans hmk')
  have hmdd : md = md' := Option.some.inj (hmd.symm.trans hmd')
  have hyy : y = y' := Option.some.inj (hy.symm.trans hy')
  subst huu hmkk hmdd hyy
  refine ⟨rfl, ?_, ?_, ?_⟩
  · rw [hr1]; rfl
  · rw [hr2]; rfl
  · rw [hr1, hr2]; rfl

/-- A minimal valid POST body for the C8 witness. -/
def c8Body : CarBody :=
  { user_id := some "user123", make := some "Toyota", model := some "Camry",
    year := some 2020 }

/-- The record the first C8 witness request creates. -/
def c8Rec1 : CarRecord :=
  { car_id := "g1", user_id := "user123", make := "Toyota", model := "Camry",
    year := 2020, vin := none, mileage := none, last_service_date := none }

/-- The record the second C8 witness request (spoofed body car_id) creates. -/
def c8Rec2 : CarRecord := { c8Rec1 with car_id := "g2" }

/-- Witness for C8 at two concrete create requests differing only in a body
`car_id` member. -/
theorem c8_body_car_id_ignored_witness :
    postCars 2025 "g1" [] { c8Body with car_id := some "spoofed" } =
      postCars 2025 "g1" [] c8Body ∧
    c8Rec1.car_id = "g1" ∧ c8Rec2.car_id = "g2" ∧
    { c8Rec1 with car_id := "g2" } = c8Rec2 :=
  c8_body_car_id_ignored 2025 "g1" "g2" [] c8Body (some "spoofed")
    c8Rec1 c8Rec2 [c8Rec1] [c8Rec2] (by decide) (by decide)

/-- Inversion of a 200 answer of the PUT handler: the id was found and the
answered record is the merge of the stored record with the supplied fields. -/
theorem putCars_ok_inv (Y : Int) (db : DB) (id : String) (b : CarBody)
    (r : CarRecord) (d : DB) (h : putCars Y db id b = (Resp.ok200 r, d)) :
    ∃ car, findByPk db id = some car ∧ car.car_id = id ∧
      r = carUpdateFields car (toFields b) := by
  unfold putCars at h
  split at h
  · split at h
    next hf => exact absurd h (by simp)
    next car hf =>
      split at h
      next hval =>
        simp only [Prod.mk.injEq, Resp.ok200.injEq] at h
        have hf2 : List.find? (fun c => c.car_id == id) db = some car := hf
        have hcid : car.car_id = id := by
          have hb := List.find?_some hf2
          simpa using hb
        exact ⟨car, hf, hcid, h.1.symm⟩
      next hval => exact absurd h (by simp)
  · exact absurd h (by simp)

/-- C9: every PUT answered with 200 answers a record whose `car_id` is the
path id unchanged — the merge never touches the primary key — and any
`car_id` member of the request body is ignored by the handler. -/
theorem c9_put_preserves_primary_key (Y : Int) (db : DB) (id : String)
    (b : CarBody) (cid : Option String) (r : CarRecord) (d : DB)
    (h : putCars Y db id b = (Resp.ok200 r, d)) :
    r.car_id = id ∧
    putCars Y db id { b with car_id := cid } = putCars Y db id b := by
  obtain ⟨car, hf, hcid, hr⟩ := putCars_ok_inv Y db id b r d h
  constructor
  · rw [hr]
    exact hcid
  · rfl

/-- A PUT body that names a different id and changes `make`. -/
def c9Body : CarBody := { make := some "Honda" }

/-- The record the C9 witness PUT produces. -/
def c9Merged : CarRecord := { car0 with make := "Honda" }

/-- Witness for C9 at a concrete successful update. -/
theorem c9_put_preserves_primary_key_witness :
    putCars 2025 [car0] "car-1" c9Body = (Resp.ok200 c9Merged, [c9Merged]) ∧
    c9Merged.car_id = "car-1" ∧
    putCars 2025 [car0] "car-1" { c9Body with car_id := some "other-id" } =
      putCars 2025 [car0] "car-1" c9Body :=
  ⟨by decide,
   (c9_put_preserves_primary_key 2025 [car0] "car-1" c9Body (some "other-id")
      c9Merged [c9Merged] (by decide)).1,
   (c9_put_preserves_primary_key 2025 [car0] "car-1" c9Body (some "other-id")
      c9Merged [c9Merged] (by decide)).2⟩

/-- C1: for every stored record found under the path id and every PUT body
whose supplied fields pass both validation layers, the handler answers 200
with the merged record and stores it under the same id: each supplied field
takes the supplied value, each omitted field keeps its stored value, the
primary key is untouched, and every other record of the table is untouched. -/
theorem c1_put_merges_supplied_fields (Y : Int) (db : DB) (id : String)
    (b : CarBody) (car : CarRecord)
    (hfind : findByPk db id = some car)
    (hroute : putErrors Y (toFields b) = [])
    (hmodel : modelValidateRecord Y (carUpdateFields car (toFields b)) = true) :
    putCars Y db id b =
      (Resp.ok200 (carUpdateFields car (toFields b)),
       db.map (fun c => if c.car_id == id then carUpdateFields car (toFields b)
                        else c)) ∧
    (carUpdateFields car (toFields b)).car_id = car.car_id ∧
    (∀ u, (toFields b).user_id = some u →
        (carUpdateFields car (toFields b)).user_id = u) ∧
    (∀ mk, (toFields b).make = some mk →
        (carUpdateFields car (toFields b)).make = mk) ∧
    (∀ md, (toFields b).model = some md →
        (carUpdateFields car (toFields b)).model = md) ∧
    (∀ y, (toFields b).year = some y →
        (carUpdateFields car (toFields b)).year = y) ∧
    (∀ v, (toFields b).vin = some v →
        (carUpdateFields car (toFields b)).vin = some v) ∧
    (∀ m, (toFields b).mileage = some m →
        (carUpdateFields car (toFields b)).mileage = some m) ∧
    (∀ dt, (toFields b).last_service_date = some dt →
        (carUpdateFields car (toFields b)).last_service_date = some dt) ∧
    ((toFields b).user_id = none →
        (carUpdateFields car (toFields b)).user_id = car.user_id) ∧
    ((toFields b).make = none →
        (carUpdateFields car (toFields b)).make = car.make) ∧
    ((toFields b).model = none →
        (carUpdateFields car (toFields b)).model = car.model) ∧
    ((toFields b).year = none →
        (carUpdateFields car (toFields b)).year = car.year) ∧
    ((toFields b).vin = none →
        (carUpdateFields car (toFields b)).vin = car.vin) ∧
    ((toFields b).mileage = none →
        (carUpdateFields car (toFields b)).mileage = car.mileage) ∧
    ((toFields b).last_service_date = none →
        (carUpdateFields car (toFields b)).last_service_date =
          car.last_service_date) ∧
    (∀ c ∈ db, c.car_id ≠ id → c ∈ (putCars Y db id b).2) := by
  have heq : putCars Y db id b =
      (Resp.ok200 (carUpdateFields car (toFields b)),
       db.map (fun c => if c.car_id == id then carUpdateFields car (toFields b)
                        else c)) := by
    simp [putCars, hroute, hfind, hmodel]
  refine ⟨heq, rfl, ?_, ?_, ?_, ?_, ?_, ?_, ?_, ?_, ?_, ?_, ?_, ?_, ?_, ?_, ?_⟩
  · intro u hu; simp [carUpdateFields, hu]
  · intro mk hmk; simp [carUpdateFields, hmk]
  · intro md hmd; simp [carUpdateFields, hmd]
  · intro y hy; simp [carUpdateFields, hy]
  · intro v hv; simp [carUpdateFields, mergeOpt, hv]
  · intro m hm; simp [carUpdateFields, mergeOpt, hm]
  · intro dt hdt; simp [carUpdateFields, mergeOpt, hdt]
  · intro hu; simp [carUpdateFields, hu]
  · intro hmk; simp [carUpdateFields, hmk]
  · intro hmd; simp [carUpdateFields, hmd]
  · intro hy; simp [carUpdateFields, hy]
  · intro hv; simp [carUpdateFields, mergeOpt, hv]
  · intro hm; simp [carUpdateFields, mergeOpt, hm]
  · intro hdt; simp [carUpdateFields, mergeOpt, hdt]
  · intro c hc hne
    rw [heq]
    have hid : (c.car_id == id) = false := by
      simpa using hne
    have hself : (if c.car_id == id then carUpdateFields car (toFields b)
                  else c) = c := by
      rw [hid]
      rfl
    have hmem : (if c.car_id == id then carUpdateFields car (toFields b)
                 else c) ∈
        db.map (fun x => if x.car_id == id then carUpdateFields car (toFields b)
                         else x) :=
      List.mem_map_of_mem _ hc
    rw [hself] at hmem
    exact hmem

/-- A PUT body supplying `make` and `mileage` only. -/
def c1Body : CarBody := { make := some "Kia", mileage := some 60000 }

/-- Witness for C1 at a concrete record and sparse body. -/
theorem c1_put_merges_supplied_fields_witness :
    findByPk [car0] "car-1" = some car0 ∧
    putErrors 2025 (toFields c1Body) = [] ∧
    modelValidateRecord 2025 (carUpdateFields car0 (toFields c1Body)) = true ∧
    putCars 2025 [car0] "car-1" c1Body =
      (Resp.ok200 (carUpdateFields car0 (toFields c1Body)),
       [car0].map (fun c => if c.car_id == "car-1" then
                              carUpdateFields car0 (toFields c1Body)
                            else c)) :=
  ⟨by decide, by decide, by decide,
   (c1_put_merges_supplied_fields 2025 [car0] "car-1" c1Body car0
      (by decide) (by decide) (by decide)).1⟩

/-- A map whose function fixes every member of a list is the identity on it. -/
theorem map_eq_self_of_mem {α : Type} (l : List α) (f : α → α)
    (h : ∀ a ∈ l, f a = a) : l.map f = l := by
  induction l with
  | nil => rfl
  | cons a t ih =>
      simp only [List.map_cons]
      rw [h a (List.mem_cons_self a t),
          ih (fun x hx => h x (List.mem_cons_of_mem a hx))]

/-- Under primary-key uniqueness, any member carrying the looked-up key is the
record the lookup returns. -/
theorem findByPk_mem_unique (db : DB) (id : String) (car c : CarRecord)
    (hnd : (db.map (fun r => r.car_id)).Nodup)
    (hfind : findByPk db id = some car) (hc : c ∈ db) (hid : c.car_id = id) :
    c = car := by
  have hf2 : List.find? (fun x => x.car_id == id) db = some car := hfind
  have hmem : car ∈ db := List.mem_of_find?_eq_some hf2
  have hcar : car.car_id = id := by
    have hb := List.find?_some hf2
    simpa using hb
  exact List.inj_on_of_nodup_map hnd hc hmem (by rw [hid, hcar])

/-- The PUT body of a request with an empty JSON object body. -/
def emptyBody : CarBody := {}

/-- C10: a PUT with an empty JSON body on an existing record (of a table with
unique primary keys, as the storage enforces) passes validation, is answered
200 with the record unchanged, and leaves the stored collection identical. -/
theorem c10_put_empty_body_identity (Y : Int) (db : DB) (id : String)
    (car : CarRecord)
    (hnd : (db.map (fun r => r.car_id)).Nodup)
    (hfind : findByPk db id = some car)
    (hvalid : modelValidateRecord Y car = true) :
    putErrors Y (toFields emptyBody) = [] ∧
    carUpdateFields car (toFields emptyBody) = car ∧
    putCars Y db id emptyBody = (Resp.ok200 car, db) := by
  have hmerge : carUpdateFields car (toFields emptyBody) = car := rfl
  refine ⟨rfl, hmerge, ?_⟩
  have h0 : carUpdateFields car ({ } : CarFields) = car := rfl
  have heq : putCars Y db id emptyBody =
      (Resp.ok200 car, db.map (fun c => if c.car_id == id then car else c)) := by
    simp [putCars, putErrors, toFields, emptyBody, errOptionalNonEmpty,
          errYearRange, errVinCheck, errMileageCheck, errDateCheck,
          hfind, h0, hvalid]
  rw [heq]
  have hdb : db.map (fun c => if c.car_id == id then car else c) = db := by
    apply map_eq_self_of_mem
    intro c hc
    by_cases hcid : c.car_id = id
    · have hceq : c = car := findByPk_mem_unique db id car c hnd hfind hc hcid
      subst hceq
      simp
    · simp [hcid]
  rw [hdb]

/-- Witness for C10 at a concrete one-record table. -/
theorem c10_put_empty_body_identity_witness :
    ([car0].map (fun r => r.car_id)).Nodup ∧
    findByPk [car0] "car-1" = some car0 ∧
    modelValidateRecord 2025 car0 = true ∧
    putErrors 2025 (toFields emptyBody) = [] ∧
    carUpdateFields car0 (toFields emptyBody) = car0 ∧
    putCars 2025 [car0] "car-1" emptyBody = (Resp.ok200 car0, [car0]) :=
  ⟨by decide, by decide, by decide,
   (c10_put_empty_body_identity 2025 [car0] "car-1" car0 (by decide) (by decide)
      (by decide)).1,
   (c10_put_empty_body_identity 2025 [car0] "car-1" car0 (by decide) (by decide)
      (by decide)).2.1,
   (c10_put_empty_body_identity 2025 [car0] "car-1" car0 (by decide) (by decide)
      (by decide)).2.2⟩
